import Mathlib

/-!
Shallow embedding of the chat model of `src/app.py` (nested-thread chat demo).

The program keeps all state in a session object: a mapping `threads` from
thread id to `Thread` (insertion-ordered, as Python dicts are), a
`current_thread` pointer, an optional `link_parent` message id, a theme and a
list of uploaded files.  The UI handlers (`render_input_area`,
`render_conversations_tab`, `render_chat_interface`) mutate this state; we
embed each handler as a pure function on an explicit `AppState`.  Clock reads
(`time.time() * 1000`, `datetime.now()`) are passed in as arguments.
-/

/-- Decimal digits of `n`, least significant first, with explicit fuel so the
kernel can evaluate it.  Models the digit extraction behind Python `str(int)`. -/
def toDecDigits : Nat → Nat → List Nat
  | 0, _ => []
  | fuel + 1, n => if n = 0 then [] else n % 10 :: toDecDigits fuel (n / 10)

/-- Decimal digits of `n`, least significant first. -/
def natDigits (n : Nat) : List Nat := toDecDigits n n

/-- Value of a least-significant-first decimal digit list. -/
def decValue : List Nat → Nat
  | [] => 0
  | d :: ds => d + 10 * decValue ds

/-- Python `str(n)` for a natural number `n`. -/
def natToDecimal (n : Nat) : String :=
  if n = 0 then "0" else String.mk ((natDigits n).reverse.map Nat.digitChar)

/-- Numeric value of a decimal digit character. -/
def charVal (c : Char) : Nat := c.toNat - 48

/-- Left inverse of `natToDecimal`, used to prove it injective. -/
def strDecode (s : String) : Nat := decValue ((s.toList.map charVal).reverse)

theorem decValue_toDecDigits (fuel : Nat) : ∀ n : Nat, n ≤ fuel →
    decValue (toDecDigits fuel n) = n := by
  induction fuel with
  | zero => intro n h; interval_cases n; rfl
  | succ fuel ih =>
    intro n h
    by_cases h0 : n = 0
    · subst h0; simp [toDecDigits, decValue]
    · have hdiv : n / 10 ≤ fuel := by omega
      simp only [toDecDigits, if_neg h0, decValue, ih _ hdiv]
      omega

theorem toDecDigits_lt_ten (fuel : Nat) : ∀ n : Nat, ∀ d ∈ toDecDigits fuel n, d < 10 := by
  induction fuel with
  | zero => intro n d hd; simp [toDecDigits] at hd
  | succ fuel ih =>
    intro n d hd
    by_cases h0 : n = 0
    · subst h0; simp [toDecDigits] at hd
    · simp only [toDecDigits, if_neg h0, List.mem_cons] at hd
      rcases hd with h | h
      · omega
      · exact ih _ d h

theorem charVal_digitChar (d : Nat) (h : d < 10) : charVal (Nat.digitChar d) = d := by
  interval_cases d <;> rfl

theorem strDecode_natToDecimal (n : Nat) : strDecode (natToDecimal n) = n := by
  by_cases h0 : n = 0
  · subst h0; rfl
  · simp only [natToDecimal, if_neg h0, strDecode]
    have htl : (String.mk ((natDigits n).reverse.map Nat.digitChar)).toList
        = (natDigits n).reverse.map Nat.digitChar := rfl
    rw [htl, List.map_map, List.map_reverse, List.reverse_reverse]
    have hmap : (natDigits n).map (charVal ∘ Nat.digitChar) = natDigits n := by
      have h1 : (natDigits n).map (charVal ∘ Nat.digitChar) = (natDigits n).map id :=
        List.map_congr_left (fun d hd => charVal_digitChar d (toDecDigits_lt_ten n n d hd))
      rw [h1, List.map_id]
    rw [hmap]
    exact decValue_toDecDigits n n le_rfl

theorem natToDecimal_injective : Function.Injective natToDecimal :=
  Function.LeftInverse.injective strDecode_natToDecimal

/-- A clock reading, as produced by Python `datetime.now()`:
year, month, day, hour, minute, second, microsecond. -/
structure Datetime where
  year : Nat
  month : Nat
  day : Nat
  hour : Nat
  minute : Nat
  second : Nat
  microsecond : Nat
deriving DecidableEq

/-- An attachment descriptor, as built by `process_uploaded_file`
(`{"name", "size", "type", "content"}`; `content` is `None` for
non-text, non-image types). -/
structure Attachment where
  name : String
  size : Nat
  mimeType : String
  content : Option String
deriving DecidableEq

/-- The `Message` dataclass of `app.py` (fields in declaration order:
id, content, role, timestamp, parent_id, thread_id, attachments). -/
structure Message where
  id : String
  content : String
  role : String
  timestamp : Datetime
  parent_id : Option String := none
  thread_id : String := "main"
  attachments : List Attachment := []
deriving DecidableEq

/-- The `Thread` dataclass of `app.py` (fields: id, name, messages,
parent_thread_id, created_at). -/
structure Thread where
  id : String
  name : String
  messages : List Message
  parent_thread_id : Option String := none
  created_at : Datetime
deriving DecidableEq

/-- The session state of `app.py`: `st.session_state.threads` is a Python
dict (insertion-ordered), embedded as an association list with unique keys;
`current_thread`, the optional `link_parent` attribute, the theme string and
the `uploaded_files` list complete the state.  (The unused
`st.session_state.messages` list is initialized to `[]` and never touched by
any handler; we keep it for faithfulness.) -/
structure AppState where
  messages : List Message
  threads : List (String × Thread)
  current_thread : String
  theme : String
  uploaded_files : List Attachment
  link_parent : Option String
deriving DecidableEq

/-- Dict lookup `threads.get(tid)` / `threads[tid]` on the association list
(first matching key). -/
def lookupThread : List (String × Thread) → String → Option Thread
  | [], _ => none
  | (a, t) :: rest, k => if a = k then some t else lookupThread rest k

/-- Dict write `threads[tid] = v`: replaces the value at an existing key in
place, otherwise appends the new key at the end (Python dict semantics). -/
def insertThread : List (String × Thread) → String → Thread → List (String × Thread)
  | [], k, v => [(k, v)]
  | (a, t) :: rest, k, v =>
      if a = k then (a, v) :: rest else (a, t) :: insertThread rest k v

theorem lookupThread_insertThread (ts : List (String × Thread)) (k : String)
    (v : Thread) (k' : String) :
    lookupThread (insertThread ts k v) k' =
      if k = k' then some v else lookupThread ts k' := by
  induction ts with
  | nil => simp [insertThread, lookupThread]
  | cons p rest ih =>
    obtain ⟨a, t⟩ := p
    by_cases hak : a = k
    · subst hak
      by_cases hk' : a = k' <;> simp [insertThread, lookupThread, hk']
    · by_cases hk' : a = k'
      · subst hk'
        have hka : ¬ k = a := fun h => hak h.symm
        simp [insertThread, lookupThread, hak, hka]
      · simp [insertThread, lookupThread, hak, hk', ih]

theorem insertThread_insertThread (ts : List (String × Thread)) (k : String)
    (v w : Thread) : insertThread (insertThread ts k v) k w = insertThread ts k w := by
  induction ts with
  | nil => simp [insertThread]
  | cons p rest ih =>
    obtain ⟨a, t⟩ := p
    by_cases hak : a = k <;> simp [insertThread, hak, ih]

/-- Writing `insertThread` at a fresh key appends at the end of the dict. -/
theorem insertThread_of_notMem (ts : List (String × Thread)) (k : String) (v : Thread)
    (h : lookupThread ts k = none) : insertThread ts k v = ts ++ [(k, v)] := by
  induction ts with
  | nil => simp [insertThread]
  | cons p rest ih =>
    obtain ⟨a, t⟩ := p
    by_cases hak : a = k
    · simp [lookupThread, hak] at h
    · simp only [lookupThread, if_neg hak] at h
      simp [insertThread, hak, ih h]

/-- Message construction inside `add_message`:
`Message(id=f"msg_{int(time.time()*1000)}", content, role, timestamp=now, thread_id, attachments or [], parent_id)`. -/
def mkMessage (ms : Nat) (now : Datetime) (content role : String)
    (thread_id : String) (attachments : List Attachment)
    (parent_id : Option String) : Message :=
  { id := "msg_" ++ natToDecimal ms
    content := content
    role := role
    timestamp := now
    parent_id := parent_id
    thread_id := thread_id
    attachments := attachments }

/-- Embeds `add_message(content, role, thread_id=None, attachments=None, parent_id=None)`:
resolves `thread_id` to the current thread when absent, builds the message,
appends it to the named thread when that thread exists, and otherwise creates
a new `Thread` with that id, the default name `f"Thread {len(threads)+1}"`, no
parent, and the message as its only element.  `ms`/`now` are the clock reads
`int(time.time()*1000)` and `datetime.now()` made during the call. -/
def add_message (st : AppState) (ms : Nat) (now : Datetime)
    (content role : String) (thread_id : Option String)
    (attachments : List Attachment) (parent_id : Option String) : AppState :=
  let tid := thread_id.getD st.current_thread
  let msg := mkMessage ms now content role tid attachments parent_id
  match lookupThread st.threads tid with
  | some t =>
      { st with threads := (insertThread st.threads tid
          { t with messages := t.messages ++ [msg] }) }
  | none =>
      { st with threads := (insertThread st.threads tid
          { id := tid
            name := "Thread " ++ natToDecimal (st.threads.length + 1)
            messages := [msg]
            parent_thread_id := none
            created_at := now }) }

/-- The thread id allocated by `create_new_thread`:
`f"thread_{int(time.time() * 1000)}"`. -/
def threadIdOf (ms : Nat) : String := "thread_" ++ natToDecimal ms

/-- Python truthiness of an optional string (`None` and `""` are falsy). -/
def pyTruthyOptStr : Option String → Bool
  | none => false
  | some s => !s.isEmpty

/-- Embeds `create_new_thread(parent_message_id=None) -> str`: allocates the id from
the millisecond clock, names the thread `f"Thread {len(threads)+1}"`, sets
`parent_thread_id` to the current thread only when `parent_message_id` is
truthy, stores the thread and returns its id. -/
def create_new_thread (st : AppState) (ms : Nat) (now : Datetime)
    (parent_message_id : Option String) : String × AppState :=
  let thread_id := threadIdOf ms
  let newThread : Thread :=
    { id := thread_id
      name := "Thread " ++ natToDecimal (st.threads.length + 1)
      messages := []
      parent_thread_id :=
        if pyTruthyOptStr parent_message_id then some st.current_thread else none
      created_at := now }
  (thread_id, { st with threads := insertThread st.threads thread_id newThread })

/-- Python `not message_input.strip()`: true iff the text is empty or
whitespace-only. -/
def isBlank (s : String) : Bool := s.toList.all Char.isWhitespace

/-- The canned assistant reply of `render_input_area` (lines 533-536):
truncated echo of the user text, plus a line naming the attachments when
there are any. -/
def assistantResponse (text : String) (attachments : List Attachment) : String :=
  let base :=
    if 50 < text.length then
      "Thank you for your message! I received: '" ++ text.take 50 ++ "...'"
    else
      "Thank you for your message: '" ++ text ++ "'"
  if attachments.isEmpty then base
  else
    base ++ "\n\nI also received " ++ natToDecimal attachments.length ++
      " file(s): " ++ String.intercalate ", " (attachments.map (fun a => a.name))

/-- Observable outcome of a send click.  The guard
`if send_clicked and message_input.strip():` has no else branch: a blank
input simply skips the whole handler, so the only outcomes are "two messages
sent" and "nothing happened" — the code has no error channel. -/
inductive SendOutcome where
  | sent
  | notSent
deriving DecidableEq

/-- The attachment list built by the send handler: `[]`, plus the processed
uploaded file when one is present. -/
def fileListOf : Option Attachment → List Attachment
  | some f => [f]
  | none => []

/-- The send-click handler of `render_input_area` (lines 514-547): when the
text is non-blank it appends the uploaded file (if any) to
`uploaded_files`, adds the user message (with `parent_id` the pending
`link_parent`), adds the assistant message with the canned reply, and deletes
`link_parent`; when the text is blank it does nothing at all.
`ms1, now1` and `ms2, now2` are the clock reads of the two `add_message`
calls. -/
def sendMessageFull (st : AppState) (ms1 ms2 : Nat) (now1 now2 : Datetime)
    (message_input : String) (uploaded_file : Option Attachment) :
    SendOutcome × AppState :=
  if isBlank message_input then (SendOutcome.notSent, st)
  else
    let attachments := fileListOf uploaded_file
    let st1 := { st with uploaded_files := st.uploaded_files ++ attachments }
    let parent_id := st1.link_parent
    let st2 := add_message st1 ms1 now1 message_input "user" none attachments parent_id
    let resp := assistantResponse message_input attachments
    let st3 := add_message st2 ms2 now2 resp "assistant" none [] none
    (SendOutcome.sent, { st3 with link_parent := none })

/-- The state after a send click. -/
def sendMessage (st : AppState) (ms1 ms2 : Nat) (now1 now2 : Datetime)
    (message_input : String) (uploaded_file : Option Attachment) : AppState :=
  (sendMessageFull st ms1 ms2 now1 now2 message_input uploaded_file).2

/-- The thread-button handler of `render_conversations_tab` (lines 349-351)
and `render_threads_tab`: `st.session_state.current_thread = thread_id`,
unconditionally.  The UI renders one such button per entry of
`st.session_state.threads.items()`, so it is only ever invoked with a
`thread_id` present in the store. -/
def switchTo (st : AppState) (thread_id : String) : AppState :=
  { st with current_thread := thread_id }

/-- The "New Thread" button handler (`render_chat_interface` lines 439-442 and
`render_input_area` lines 549-552): `create_new_thread()` with no argument,
then `current_thread = new_thread_id`. -/
def newThreadClick (st : AppState) (ms : Nat) (now : Datetime) : AppState :=
  let r := create_new_thread st ms now none
  { r.2 with current_thread := r.1 }

/-- The "Clear" button handler (`render_input_area` lines 557-561):
`threads[current_thread].messages.clear()` then delete `link_parent`.
The dict index raises `KeyError` when `current_thread` is absent, which we
model as `none`. -/
def clearCurrentThread (st : AppState) : Option AppState :=
  match lookupThread st.threads st.current_thread with
  | some t =>
      some ({ st with
              threads := (insertThread st.threads st.current_thread
                { t with messages := [] })
              link_parent := none })
  | none => none

/-- Embeds `initialize_session_state`: empty `messages`, a `threads` dict holding
only the `main` thread (`Thread(id="main", name="Main Conversation",
messages=[])`, `created_at` defaulted to `datetime.now()`),
`current_thread = "main"`, light theme, no uploads; the `link_parent`
attribute does not exist yet. -/
def initState (now : Datetime) : AppState :=
  { messages := []
    threads := [("main",
      { id := "main", name := "Main Conversation", messages := []
        parent_thread_id := none, created_at := now })]
    current_thread := "main"
    theme := "light"
    uploaded_files := []
    link_parent := none }

/-- The root threads, as enumerated by `render_threads_tab` (lines 375-378):
the stored threads whose `parent_thread_id` is `None`, in store order. -/
def rootThreads (st : AppState) : List Thread :=
  (st.threads.filter (fun p => p.2.parent_thread_id = none)).map (fun p => p.2)

/-- JSON values, the target of the export
(`json.dumps(export_data, indent=2, default=str)` applied to nested
`asdict` dictionaries). -/
inductive Json where
  | null : Json
  | str : String → Json
  | num : Int → Json
  | arr : List Json → Json
  | obj : List (String × Json) → Json

/-- Zero-pad a decimal rendering to width `w` (Python `%0wd`). -/
def padNat (w n : Nat) : String :=
  let s := natToDecimal n
  if s.length < w then String.mk (List.replicate (w - s.length) '0') ++ s else s

/-- The date part `YYYY-MM-DD` shared by `str(datetime)` and
`datetime.isoformat()`. -/
def isoDatePart (d : Datetime) : String :=
  padNat 4 d.year ++ "-" ++ padNat 2 d.month ++ "-" ++ padNat 2 d.day

/-- The time part `HH:MM:SS[.ffffff]` shared by `str(datetime)` and
`datetime.isoformat()` (the fractional part is omitted when the microsecond
field is zero). -/
def isoTimePart (d : Datetime) : String :=
  padNat 2 d.hour ++ ":" ++ padNat 2 d.minute ++ ":" ++ padNat 2 d.second ++
    (if d.microsecond = 0 then "" else "." ++ padNat 6 d.microsecond)

/-- Python `str(datetime)`: isoformat with a space separating date and time.
This is what `json.dumps(..., default=str)` applies to every `datetime`
value in the export. -/
def dtToString (d : Datetime) : String := isoDatePart d ++ " " ++ isoTimePart d

/-- Python `datetime.isoformat()`: the ISO-8601 rendering, with `T`
separating date and time. -/
def isoformat (d : Datetime) : String := isoDatePart d ++ "T" ++ isoTimePart d

/-- Serialization of an optional string (`None` becomes JSON `null`). -/
def optStrJson : Option String → Json
  | none => Json.null
  | some s => Json.str s

/-- Serialization (`asdict`) of an attachment dict under `default=str` (keys in the order
`process_uploaded_file` builds them). -/
def attachmentToJson (a : Attachment) : Json :=
  Json.obj
    [("name", Json.str a.name), ("size", Json.num a.size),
     ("type", Json.str a.mimeType),
     ("content", optStrJson a.content)]

/-- Serialization (`asdict`) of a `Message` under `default=str` (dataclass field order). -/
def messageToJson (m : Message) : Json :=
  Json.obj
    [("id", Json.str m.id), ("content", Json.str m.content),
     ("role", Json.str m.role),
     ("timestamp", Json.str (dtToString m.timestamp)),
     ("parent_id", optStrJson m.parent_id),
     ("thread_id", Json.str m.thread_id),
     ("attachments", Json.arr (m.attachments.map attachmentToJson))]

/-- Serialization (`asdict`) of a `Thread` under `default=str` (dataclass field order). -/
def threadToJson (t : Thread) : Json :=
  Json.obj
    [("id", Json.str t.id), ("name", Json.str t.name),
     ("messages", Json.arr (t.messages.map messageToJson)),
     ("parent_thread_id", optStrJson t.parent_thread_id),
     ("created_at", Json.str (dtToString t.created_at))]

/-- The export of `render_settings_tab` (lines 413-423):
`{"threads": {tid: asdict(thread) for ...}, "current_thread": current}`,
serialized with `default=str`.  It is a pure read of the state: the dict
comprehension builds a fresh object and writes nothing back to the session. -/
def exportSnapshot (st : AppState) : Json :=
  Json.obj
    [("threads", Json.obj (st.threads.map (fun p => (p.1, threadToJson p.2)))),
     ("current_thread", Json.str st.current_thread)]

/-- The keys of a JSON object, in order. -/
def jsonKeys : Json → List String
  | Json.obj fields => fields.map (fun p => p.1)
  | _ => []

/-- First field of a JSON object with the given key. -/
def jsonField : Json → String → Option Json
  | Json.obj fields, k => (fields.find? (fun p => p.1 = k)).map (fun p => p.2)
  | _, _ => none

/-- One UI interaction, as the handlers of `app.py` expose them: a send
click (any text, any optional upload, any clock readings), a "New Thread"
click, a thread-button click (`render_conversations_tab` renders one button
per entry of `threads.items()`, so the target id is always a key of the
store), and a "Clear" click (which indexes `threads[current_thread]` and so
only completes when that key is present). -/
inductive Step : AppState → AppState → Prop where
  | send (st : AppState) (ms1 ms2 : Nat) (now1 now2 : Datetime)
      (text : String) (file : Option Attachment) :
      Step st (sendMessage st ms1 ms2 now1 now2 text file)
  | newThread (st : AppState) (ms : Nat) (now : Datetime) :
      Step st (newThreadClick st ms now)
  | switch (st : AppState) (tid : String)
      (h : lookupThread st.threads tid ≠ none) :
      Step st (switchTo st tid)
  | clear (st st' : AppState) (h : clearCurrentThread st = some st') :
      Step st st'

/-- States reachable from `initialize_session_state` by UI interactions. -/
inductive Reachable : AppState → Prop where
  | init (now : Datetime) : Reachable (initState now)
  | step {st st' : AppState} : Reachable st → Step st st' → Reachable st'

/-- A fixed clock value for concrete evaluations. -/
def dt0 : Datetime := ⟨2024, 1, 1, 12, 0, 0, 0⟩

theorem lookup_insertThread_ne_none (ts : List (String × Thread)) (k : String)
    (v : Thread) (k' : String) (h : lookupThread ts k' ≠ none) :
    lookupThread (insertThread ts k v) k' ≠ none := by
  rw [lookupThread_insertThread]
  split <;> simp_all

theorem lookup_insertThread_self_ne_none (ts : List (String × Thread)) (k : String)
    (v : Thread) : lookupThread (insertThread ts k v) k ≠ none := by
  rw [lookupThread_insertThread]
  simp

theorem add_message_current_thread (st : AppState) (ms : Nat) (now : Datetime)
    (content role : String) (thread_id : Option String)
    (attachments : List Attachment) (parent_id : Option String) :
    (add_message st ms now content role thread_id attachments parent_id).current_thread
      = st.current_thread := by
  cases h : lookupThread st.threads (thread_id.getD st.current_thread) <;>
    simp [add_message, h]

theorem add_message_threads_shape (st : AppState) (ms : Nat) (now : Datetime)
    (content role : String) (thread_id : Option String)
    (attachments : List Attachment) (parent_id : Option String) :
    ∃ T : Thread,
      (add_message st ms now content role thread_id attachments parent_id).threads
        = insertThread st.threads (thread_id.getD st.current_thread) T := by
  cases h : lookupThread st.threads (thread_id.getD st.current_thread) with
  | none =>
    exact ⟨{ id := thread_id.getD st.current_thread
             name := "Thread " ++ natToDecimal (st.threads.length + 1)
             messages := [mkMessage ms now content role
               (thread_id.getD st.current_thread) attachments parent_id]
             parent_thread_id := none
             created_at := now }, by simp [add_message, h]⟩
  | some t =>
    exact ⟨{ t with messages := t.messages ++ [mkMessage ms now content role
               (thread_id.getD st.current_thread) attachments parent_id] },
           by simp [add_message, h]⟩

theorem add_message_key_preserved (st : AppState) (ms : Nat) (now : Datetime)
    (content role : String) (thread_id : Option String)
    (attachments : List Attachment) (parent_id : Option String) (k : String)
    (h : lookupThread st.threads k ≠ none) :
    lookupThread
      (add_message st ms now content role thread_id attachments parent_id).threads k
      ≠ none := by
  obtain ⟨T, hT⟩ :=
    add_message_threads_shape st ms now content role thread_id attachments parent_id
  rw [hT]
  exact lookup_insertThread_ne_none _ _ _ _ h

theorem sendMessage_current_thread (st : AppState) (ms1 ms2 : Nat)
    (now1 now2 : Datetime) (text : String) (file : Option Attachment) :
    (sendMessage st ms1 ms2 now1 now2 text file).current_thread
      = st.current_thread := by
  unfold sendMessage sendMessageFull
  split
  · rfl
  · simp [add_message_current_thread]

theorem sendMessage_key_preserved (st : AppState) (ms1 ms2 : Nat)
    (now1 now2 : Datetime) (text : String) (file : Option Attachment) (k : String)
    (h : lookupThread st.threads k ≠ none) :
    lookupThread (sendMessage st ms1 ms2 now1 now2 text file).threads k ≠ none := by
  unfold sendMessage sendMessageFull
  split
  · exact h
  · exact add_message_key_preserved _ _ _ _ _ _ _ _ _
      (add_message_key_preserved _ _ _ _ _ _ _ _ _ h)

theorem clearCurrentThread_spec (st st' : AppState)
    (h : clearCurrentThread st = some st') :
    st'.current_thread = st.current_thread ∧
    ∃ T : Thread, st'.threads = insertThread st.threads st.current_thread T := by
  unfold clearCurrentThread at h
  cases hc : lookupThread st.threads st.current_thread with
  | none => rw [hc] at h; cases h
  | some t => rw [hc] at h; cases h; exact ⟨rfl, _, rfl⟩

theorem newThreadClick_spec (st : AppState) (ms : Nat) (now : Datetime) :
    (newThreadClick st ms now).current_thread = threadIdOf ms ∧
    ∃ T : Thread,
      (newThreadClick st ms now).threads = insertThread st.threads (threadIdOf ms) T :=
  ⟨rfl, _, rfl⟩

/-- A whole sequence of `create_new_thread()` calls, collecting the returned
thread ids; the `Nat × Datetime` pairs are the clock readings of each call. -/
def runCreates : AppState → List (Nat × Datetime) → List String × AppState
  | st, [] => ([], st)
  | st, (ms, now) :: rest =>
      let r := create_new_thread st ms now none
      let rr := runCreates r.2 rest
      (r.1 :: rr.1, rr.2)

theorem runCreates_ids (st : AppState) (calls : List (Nat × Datetime)) :
    (runCreates st calls).1 = calls.map (fun c => threadIdOf c.1) := by
  induction calls generalizing st with
  | nil => rfl
  | cons c rest ih =>
    obtain ⟨ms, now⟩ := c
    simp [runCreates, create_new_thread, ih]

theorem threadIdOf_injective : Function.Injective threadIdOf := by
  intro a b h
  have hd : ("thread_" ++ natToDecimal a).data = ("thread_" ++ natToDecimal b).data :=
    congrArg String.data h
  have hd2 : "thread_".data ++ (natToDecimal a).data
      = "thread_".data ++ (natToDecimal b).data := hd
  have hd3 : (natToDecimal a).data = (natToDecimal b).data :=
    List.append_cancel_left hd2
  exact natToDecimal_injective (congrArg String.mk hd3)

/-- Full effect of a send click with non-blank text when the current thread
is in the store: the uploaded file (if any) is recorded, the user message
(with the pending link target as its parent) and then the assistant message
are appended to the current thread, and the pending link target is
cleared. -/
theorem sendMessageFull_nonblank (st : AppState) (ms1 ms2 : Nat)
    (now1 now2 : Datetime) (text : String) (file : Option Attachment)
    (t : Thread) (hb : isBlank text = false)
    (hcur : lookupThread st.threads st.current_thread = some t) :
    sendMessageFull st ms1 ms2 now1 now2 text file =
      (SendOutcome.sent,
       { st with
         uploaded_files := st.uploaded_files ++ fileListOf file
         threads := (insertThread st.threads st.current_thread
           { t with messages := t.messages ++
               [mkMessage ms1 now1 text "user" st.current_thread
                  (fileListOf file) st.link_parent,
                mkMessage ms2 now2 (assistantResponse text (fileListOf file))
                  "assistant" st.current_thread [] none] })
         link_parent := none }) := by
  simp [sendMessageFull, hb, add_message, hcur, lookupThread_insertThread,
    insertThread_insertThread]

/-- Claim C1, counterexample: `create_new_thread` derives the returned id
solely from the millisecond clock reading (`f"thread_{int(time.time()*1000)}"`),
so two calls made within the same millisecond return the same id — the
claimed unconditional uniqueness fails.  Here two consecutive calls both
reading clock value 7 both return `"thread_7"` (and the second silently
overwrites the first thread in the store). -/
theorem C1_same_millisecond_collision :
    (runCreates (initState dt0) [(7, dt0), (7, dt0)]).1
      = [threadIdOf 7, threadIdOf 7] ∧
    ¬ (runCreates (initState dt0) [(7, dt0), (7, dt0)]).1.Pairwise
        (fun i j => i ≠ j) := by
  constructor
  · rfl
  · decide

/-- Claim C1, amended: for every sequence of `create_new_thread` calls whose
millisecond clock readings are pairwise distinct, every returned thread id is
unique (no two calls return the same id). -/
theorem C1_ids_unique_of_distinct_times (st : AppState)
    (calls : List (Nat × Datetime))
    (h : calls.Pairwise (fun c c' => c.1 ≠ c'.1)) :
    (runCreates st calls).1.Pairwise (fun i j => i ≠ j) := by
  rw [runCreates_ids, List.pairwise_map]
  exact h.imp (fun hne he => hne (threadIdOf_injective he))

/-- Witness for C1's amended theorem at a concrete two-call sequence with
distinct clock readings. -/
theorem C1_ids_unique_witness :
    (runCreates (initState dt0) [(1, dt0), (2, dt0)]).1.Pairwise
      (fun i j => i ≠ j) :=
  C1_ids_unique_of_distinct_times (initState dt0) [(1, dt0), (2, dt0)] (by decide)

/-- Claim C2: a send click with non-blank text appends exactly two messages
to the current thread's sequence — first a user message carrying the given
text, then an assistant message
(whose content is the canned reply) — and clears any pending link target. -/
theorem C2_send_appends_user_then_assistant (st : AppState) (ms1 ms2 : Nat)
    (now1 now2 : Datetime) (text : String) (file : Option Attachment)
    (t : Thread) (hb : isBlank text = false)
    (hcur : lookupThread st.threads st.current_thread = some t) :
    ∃ u a : Message,
      lookupThread (sendMessage st ms1 ms2 now1 now2 text file).threads
          st.current_thread
        = some { t with messages := t.messages ++ [u, a] } ∧
      u.role = "user" ∧ u.content = text ∧
      a.role = "assistant" ∧
      a.content = assistantResponse text (fileListOf file) ∧
      (sendMessage st ms1 ms2 now1 now2 text file).link_parent = none := by
  refine ⟨mkMessage ms1 now1 text "user" st.current_thread
            (fileListOf file) st.link_parent,
          mkMessage ms2 now2 (assistantResponse text (fileListOf file))
            "assistant" st.current_thread [] none,
          ?_, rfl, rfl, rfl, rfl, ?_⟩
  · unfold sendMessage
    rw [sendMessageFull_nonblank st ms1 ms2 now1 now2 text file t hb hcur]
    simp [lookupThread_insertThread]
  · unfold sendMessage
    rw [sendMessageFull_nonblank st ms1 ms2 now1 now2 text file t hb hcur]

/-- Witness for C2 at a concrete state and input. -/
theorem C2_send_witness :
    (isBlank "hi" = false) ∧
    (lookupThread (initState dt0).threads (initState dt0).current_thread
      = some { id := "main", name := "Main Conversation", messages := []
               parent_thread_id := none, created_at := dt0 }) ∧
    ∃ u a : Message,
      lookupThread (sendMessage (initState dt0) 1 2 dt0 dt0 "hi" none).threads
          (initState dt0).current_thread
        = some { id := "main", name := "Main Conversation", messages := [u, a]
                 parent_thread_id := none, created_at := dt0 } ∧
      u.role = "user" ∧ u.content = "hi" ∧
      a.role = "assistant" ∧
      a.content = assistantResponse "hi" (fileListOf none) ∧
      (sendMessage (initState dt0) 1 2 dt0 dt0 "hi" none).link_parent = none :=
  ⟨by decide, rfl,
   C2_send_appends_user_then_assistant (initState dt0) 1 2 dt0 dt0 "hi" none
     { id := "main", name := "Main Conversation", messages := []
       parent_thread_id := none, created_at := dt0 } (by decide) rfl⟩

/-- Claim C3, counterexample: a send click with whitespace-only text is a
silent no-op — the handler guard `if send_clicked and message_input.strip():`
simply skips, returning the state unchanged with no error of any kind (the
code has no `EmptyMessage` error channel at all: `SendOutcome` has only the
constructors `sent` and `notSent`), so the claimed explicit
`EmptyMessage` rejection does not occur. -/
theorem C3_blank_send_is_silent_noop :
    sendMessageFull (initState dt0) 1 2 dt0 dt0 "   " none
      = (SendOutcome.notSent, initState dt0) := by
  rfl

/-- Claim C3, amended: a send click with empty or whitespace-only text is a
silent no-op: the state is returned unchanged (so no message is appended to
any thread) and no error is signalled — there is no `EmptyMessage`
rejection in the code. -/
theorem C3_blank_send_noop (st : AppState) (ms1 ms2 : Nat)
    (now1 now2 : Datetime) (text : String) (file : Option Attachment)
    (h : isBlank text = true) :
    sendMessageFull st ms1 ms2 now1 now2 text file
      = (SendOutcome.notSent, st) := by
  unfold sendMessageFull
  rw [if_pos h]

/-- Witness for C3's amended theorem at a concrete blank input. -/
theorem C3_blank_send_witness :
    sendMessageFull (initState dt0) 3 4 dt0 dt0 "\t \n" none
      = (SendOutcome.notSent, initState dt0) :=
  C3_blank_send_noop (initState dt0) 3 4 dt0 dt0 "\t \n" none (by decide)

/-- Claim C4: the canned assistant reply quotes the text verbatim with
prefix `"Thank you for your message:"` when its length is at most 50,
quotes the first 50 characters followed by `"..."` with prefix
`"Thank you for your message!"` when longer, and when attachments are
present appends a line listing their names joined by `", "`. -/
theorem C4_echo_policy (text : String) (atts : List Attachment) :
    (text.length ≤ 50 →
      assistantResponse text []
        = "Thank you for your message: '" ++ text ++ "'") ∧
    (50 < text.length →
      assistantResponse text []
        = "Thank you for your message! I received: '" ++ text.take 50 ++ "...'") ∧
    (atts ≠ [] →
      assistantResponse text atts
        = assistantResponse text [] ++ "\n\nI also received " ++
            natToDecimal atts.length ++ " file(s): " ++
            String.intercalate ", " (atts.map (fun a => a.name))) := by
  refine ⟨fun h => ?_, fun h => ?_, fun h => ?_⟩
  · simp only [assistantResponse, List.isEmpty_nil, if_true]
    rw [if_neg (by omega)]
  · simp only [assistantResponse, List.isEmpty_nil, if_true]
    rw [if_pos h]
  · cases atts with
    | nil => exact absurd rfl h
    | cons a rest =>
      simp only [assistantResponse, List.isEmpty_nil, List.isEmpty_cons,
        if_true, Bool.false_eq_true, if_false]

/-- Witness for C4 at concrete short, long and attachment-bearing inputs. -/
theorem C4_echo_policy_witness :
    assistantResponse "hi" [] = "Thank you for your message: '" ++ "hi" ++ "'" :=
  (C4_echo_policy "hi" []).1 (by decide)

/-- Claim C5: `add_message` to a thread id absent from the store does not
fail: it creates a new thread under that id with the default name
`"Thread " ++ str(len(threads)+1)` whose sequence holds exactly the appended
message; `add_message` to a present id appends to that thread's existing
sequence.  (`add_message` is a total function: no failure path exists.) -/
theorem C5_append_auto_creates_or_appends (st : AppState) (ms : Nat)
    (now : Datetime) (content role : String) (tid : String)
    (atts : List Attachment) (pid : Option String) :
    (lookupThread st.threads tid = none →
      lookupThread
          (add_message st ms now content role (some tid) atts pid).threads tid
        = some { id := tid
                 name := "Thread " ++ natToDecimal (st.threads.length + 1)
                 messages := [mkMessage ms now content role tid atts pid]
                 parent_thread_id := none
                 created_at := now }) ∧
    (∀ t : Thread, lookupThread st.threads tid = some t →
      lookupThread
          (add_message st ms now content role (some tid) atts pid).threads tid
        = some { t with
                 messages := t.messages ++
                   [mkMessage ms now content role tid atts pid] }) := by
  constructor
  · intro h
    simp [add_message, h, lookupThread_insertThread]
  · intro t h
    simp [add_message, h, lookupThread_insertThread]

/-- Witness for C5 at a concrete unknown thread id. -/
theorem C5_append_witness :
    lookupThread
        (add_message (initState dt0) 5 dt0 "hello" "user" (some "t1") [] none).threads
        "t1"
      = some { id := "t1"
               name := "Thread " ++ natToDecimal ((initState dt0).threads.length + 1)
               messages := [mkMessage 5 dt0 "hello" "user" "t1" [] none]
               parent_thread_id := none
               created_at := dt0 } :=
  (C5_append_auto_creates_or_appends (initState dt0) 5 dt0 "hello" "user" "t1"
    [] none).1 (by decide)

/-- Claim C6, counterexample: the thread-switch handler is the bare
assignment `st.session_state.current_thread = thread_id`; the code has no
`ThreadNotFound` check or error path.  Applied to an id absent from the
store it changes `current_thread` to that id instead of failing and leaving
it unchanged, as the claim states. -/
theorem C6_switch_unknown_id_changes_pointer :
    lookupThread (initState dt0).threads "ghost" = none ∧
    (initState dt0).current_thread = "main" ∧
    (switchTo (initState dt0) "ghost").current_thread = "ghost" := by
  refine ⟨by decide, rfl, rfl⟩

/-- Claim C6, amended: switching is only offered by the UI for thread ids
present in the store (one button per entry of `threads.items()`); for every
such id the handler sets `current_thread` to it and leaves the thread store
unchanged.  No `ThreadNotFound` failure exists in the code; an unknown id,
if forced, would simply be installed as a dangling pointer. -/
theorem C6_switch_known_id (st : AppState) (tid : String)
    (h : lookupThread st.threads tid ≠ none) :
    (switchTo st tid).current_thread = tid ∧ (switchTo st tid).threads = st.threads :=
  ⟨rfl, rfl⟩

/-- Witness for C6's amended theorem at a concrete known id. -/
theorem C6_switch_witness :
    (switchTo (initState dt0) "main").current_thread = "main" ∧
    (switchTo (initState dt0) "main").threads = (initState dt0).threads :=
  C6_switch_known_id (initState dt0) "main" (by decide)

/-- Claim C7: the clear click empties the current thread's message sequence
and clears the pending link target, while preserving the thread record's
id, name, parent-thread id (and creation time), leaving `current_thread`
itself unchanged, and leaving every other thread's entry untouched. -/
theorem C7_clear_current_thread (st : AppState) (t : Thread)
    (h : lookupThread st.threads st.current_thread = some t) :
    ∃ st' : AppState, clearCurrentThread st = some st' ∧
      (∃ t' : Thread,
        lookupThread st'.threads st.current_thread = some t' ∧
        t'.messages = [] ∧ t'.id = t.id ∧ t'.name = t.name ∧
        t'.parent_thread_id = t.parent_thread_id ∧
        t'.created_at = t.created_at) ∧
      st'.link_parent = none ∧
      st'.current_thread = st.current_thread ∧
      (∀ k : String, k ≠ st.current_thread →
        lookupThread st'.threads k = lookupThread st.threads k) := by
  refine ⟨{ st with
            threads := (insertThread st.threads st.current_thread
              { t with messages := [] })
            link_parent := none },
          by simp [clearCurrentThread, h],
          ⟨{ t with messages := [] }, ?_, rfl, rfl, rfl, rfl, rfl⟩,
          rfl, rfl, ?_⟩
  · simp [lookupThread_insertThread]
  · intro k hk
    rw [lookupThread_insertThread, if_neg (fun hh => hk hh.symm)]

/-- Witness for C7 at a concrete state. -/
theorem C7_clear_witness :
    ∃ st' : AppState, clearCurrentThread (initState dt0) = some st' ∧
      (∃ t' : Thread,
        lookupThread st'.threads (initState dt0).current_thread = some t' ∧
        t'.messages = [] ∧
        t'.id = ("main" : String) ∧
        t'.name = ("Main Conversation" : String) ∧
        t'.parent_thread_id = (none : Option String) ∧
        t'.created_at = dt0) ∧
      st'.link_parent = none ∧
      st'.current_thread = (initState dt0).current_thread ∧
      (∀ k : String, k ≠ (initState dt0).current_thread →
        lookupThread st'.threads k = lookupThread (initState dt0).threads k) :=
  C7_clear_current_thread (initState dt0)
    { id := "main", name := "Main Conversation", messages := []
      parent_thread_id := none, created_at := dt0 } rfl

/-- Claim C8: in every state reachable from `initialize_session_state` by
any sequence of UI interactions (send message, create thread,
switch thread, clear thread), `current_thread` refers to a thread present in
the store, and the `main` thread is present in the store. -/
theorem C8_reachable_invariant (st : AppState) (h : Reachable st) :
    lookupThread st.threads "main" ≠ none ∧
    lookupThread st.threads st.current_thread ≠ none := by
  induction h with
  | init now => constructor <;> simp [initState, lookupThread]
  | @step s s' hr hs ih =>
    cases hs with
    | send ms1 ms2 now1 now2 text file =>
      refine ⟨sendMessage_key_preserved s ms1 ms2 now1 now2 text file "main" ih.1, ?_⟩
      rw [sendMessage_current_thread]
      exact sendMessage_key_preserved s ms1 ms2 now1 now2 text file s.current_thread ih.2
    | newThread ms now =>
      obtain ⟨hcur, T, hT⟩ := newThreadClick_spec s ms now
      refine ⟨?_, ?_⟩
      · rw [hT]; exact lookup_insertThread_ne_none _ _ _ _ ih.1
      · rw [hT, hcur]; exact lookup_insertThread_self_ne_none _ _ _
    | switch tid hmem => exact ⟨ih.1, hmem⟩
    | clear =>
      rename_i hcl
      obtain ⟨hcur, T, hT⟩ := clearCurrentThread_spec s s' hcl
      refine ⟨?_, ?_⟩
      · rw [hT]; exact lookup_insertThread_ne_none _ _ _ _ ih.1
      · rw [hT, hcur]; exact lookup_insertThread_self_ne_none _ _ _

/-- Witness for C8 at the initial state, which is reachable by definition. -/
theorem C8_invariant_witness :
    lookupThread (initState dt0).threads "main" ≠ none ∧
    lookupThread (initState dt0).threads (initState dt0).current_thread ≠ none :=
  C8_reachable_invariant (initState dt0) (Reachable.init dt0)

/-- Claim C9: the export is a pure read (in this embedding a function of the
state, matching the code, which builds a fresh dict comprehension and writes
nothing back to the session); its top-level object has exactly the keys
`threads` — mapping each stored thread id to the thread's full record,
messages included — and the current-thread pointer (spelled
`current_thread` in the code's JSON, the spec's `currentThreadId`); and
every timestamp is serialized as the string `str(datetime)`, which is the
ISO-8601 `isoformat()` text with the date and time parts separated by a
space instead of `T` — an equivalent canonical textual form. -/
theorem C9_export_snapshot_shape (st : AppState) :
    jsonKeys (exportSnapshot st) = ["threads", "current_thread"] ∧
    jsonField (exportSnapshot st) "current_thread"
      = some (Json.str st.current_thread) ∧
    jsonField (exportSnapshot st) "threads"
      = some (Json.obj (st.threads.map (fun p => (p.1, threadToJson p.2)))) ∧
    (∀ t : Thread,
      jsonField (threadToJson t) "messages"
        = some (Json.arr (t.messages.map messageToJson)) ∧
      jsonField (threadToJson t) "created_at"
        = some (Json.str (dtToString t.created_at))) ∧
    (∀ m : Message,
      jsonField (messageToJson m) "timestamp"
        = some (Json.str (dtToString m.timestamp))) ∧
    (∀ d : Datetime,
      dtToString d = isoDatePart d ++ " " ++ isoTimePart d ∧
      isoformat d = isoDatePart d ++ "T" ++ isoTimePart d) :=
  ⟨rfl, rfl, rfl, fun _ => ⟨rfl, rfl⟩, fun _ => rfl, fun _ => ⟨rfl, rfl⟩⟩

/-- Shape of `add_message` to an id absent from the store: the auto-created
thread is appended at the end of the dict. -/
theorem add_message_unknown (st : AppState) (ms : Nat) (now : Datetime)
    (content role : String) (tid : String) (atts : List Attachment)
    (pid : Option String) (h : lookupThread st.threads tid = none) :
    (add_message st ms now content role (some tid) atts pid).threads
      = st.threads ++
        [(tid, { id := tid
                 name := "Thread " ++ natToDecimal (st.threads.length + 1)
                 messages := [mkMessage ms now content role tid atts pid]
                 parent_thread_id := none
                 created_at := now })] := by
  have h2 := insertThread_of_notMem st.threads tid
    { id := tid
      name := "Thread " ++ natToDecimal (st.threads.length + 1)
      messages := [mkMessage ms now content role tid atts pid]
      parent_thread_id := none
      created_at := now } h
  simp [add_message, h, h2]

/-- Claim C10: a thread auto-created by appending a message to an unknown
thread id has no `parent_thread_id` (so it appears among the root threads of
the hierarchy view), and immediately after creation its message sequence is
exactly the one appended message. -/
theorem C10_auto_created_thread_is_root (st : AppState) (ms : Nat)
    (now : Datetime) (content role : String) (tid : String)
    (atts : List Attachment) (pid : Option String)
    (h : lookupThread st.threads tid = none) :
    ∃ t : Thread,
      lookupThread
          (add_message st ms now content role (some tid) atts pid).threads tid
        = some t ∧
      t.parent_thread_id = none ∧
      t.messages = [mkMessage ms now content role tid atts pid] ∧
      t ∈ rootThreads (add_message st ms now content role (some tid) atts pid) := by
  refine ⟨{ id := tid
            name := "Thread " ++ natToDecimal (st.threads.length + 1)
            messages := [mkMessage ms now content role tid atts pid]
            parent_thread_id := none
            created_at := now }, ?_, rfl, rfl, ?_⟩
  · simp [add_message, h, lookupThread_insertThread]
  · simp only [rootThreads, add_message_unknown st ms now content role tid atts pid h,
      List.filter_append, List.map_append]
    apply List.mem_append_right
    simp

/-- Witness for C10 at a concrete unknown thread id. -/
theorem C10_auto_created_witness :
    ∃ t : Thread,
      lookupThread
          (add_message (initState dt0) 8 dt0 "x" "user" (some "t9") [] none).threads
          "t9"
        = some t ∧
      t.parent_thread_id = none ∧
      t.messages = [mkMessage 8 dt0 "x" "user" "t9" [] none] ∧
      t ∈ rootThreads (add_message (initState dt0) 8 dt0 "x" "user" (some "t9") [] none) :=
  C10_auto_created_thread_is_root (initState dt0) 8 dt0 "x" "user" "t9" [] none
    (by decide)
